import Mathlib

/-!
# Home page interaction script (`src/主页交互.js`)

Shallow embedding of the click-delegation script: the notification helper `toast`,
the three leaf actions `copyText`, `openLink`, `switchOpeningSwipe`, the dispatcher
`onClick` and the guarded module body.

Modelling conventions.

* The page is a list of elements; an element is identified by its position.
* Everything the script does to its surroundings is recorded in the `World`:
  class lists of the elements, the load flag on `window`, the number of click
  listeners registered by the module body, and four logs (calls of `toast`, calls of
  the delivery channels, calls of the chat host, calls of browser facilities).
* The surroundings are a `Host`: every optional function is an `Option`, `none`
  meaning that `typeof f` is not `function`; a present function answers as a function
  of the world at the time of the call and of its arguments, either returning or
  throwing. An `await` is evaluated in place: a rejected promise is a throw, and no
  other handler runs in between.
* An `Outcome` is the world after a call together with the exception that escaped
  it, if any (for an `async` function: the rejection of its promise).
-/

namespace HomeInteract

/-! ## Values -/

/-- Severity levels handed to `toast`. -/
inductive Severity
  | info
  | success
  | warning
  | error
deriving DecidableEq, Repr

/-- Text of a severity inside a template literal. -/
def Severity.text : Severity → String
  | .info => "info"
  | .success => "success"
  | .warning => "warning"
  | .error => "error"

/-- Thrown value `e`, as far as the script looks at it: `message` is `e.message`
(empty when `e` or its message is falsy) and `shown` is `String(e)`. -/
structure JSError where
  message : String
  shown : String
deriving DecidableEq, Repr

/-- Value of `new Error(m)`. -/
def JSError.ofMessage (m : String) : JSError := ⟨m, "Error: " ++ m⟩

/-- The expression `e && e.message ? e.message : String(e)`. -/
def JSError.describe (e : JSError) : String :=
  if e.message ≠ "" then e.message else e.shown

/-- Number value, identified by its `ToString` rendering (`"0"`, `"12"`, `"-1.5"`,
`"NaN"`, `"Infinity"`, ...). The script observes a number only through
`Number.isFinite`, through property access `swipes[swipeId]` and through template
literals, and all three are functions of that rendering. -/
structure JSNum where
  repr : String
deriving DecidableEq, Repr

/-- `Number.isFinite(n)`. -/
def JSNum.isFinite (n : JSNum) : Bool :=
  n.repr != "NaN" && n.repr != "Infinity" && n.repr != "-Infinity"

/-- White space and line terminators stripped by `Number` from both ends of a string. -/
def isStrWhiteSpace (c : Char) : Bool :=
  c.toNat ∈ [0x09, 0x0A, 0x0B, 0x0C, 0x0D, 0x20, 0xA0, 0x1680, 0x2028, 0x2029, 0x202F,
    0x205F, 0x3000, 0xFEFF] || (0x2000 ≤ c.toNat && c.toNat ≤ 0x200A)

/-- Strip white space from both ends. -/
def trimWhiteSpace (cs : List Char) : List Char :=
  ((cs.dropWhile isStrWhiteSpace).reverse.dropWhile isStrWhiteSpace).reverse

/-- Value of a run of decimal digits. -/
def digitsValue (cs : List Char) : Nat :=
  cs.foldl (fun acc c => 10 * acc + (c.toNat - 48)) 0

/-- Optional `ExponentPart` followed by the end of the text. -/
def isExponentTail : List Char → Bool
  | [] => true
  | c :: rest =>
    (c = 'e' || c = 'E') &&
      (match rest with
        | s :: ds => if s = '+' || s = '-' then !ds.isEmpty && ds.all Char.isDigit
                     else rest.all Char.isDigit
        | [] => false)

/-- `StrUnsignedDecimalLiteral` other than `Infinity`: digits, an optional fraction
and an optional exponent, with at least one digit before the exponent. -/
def isUnsignedDecimal (cs : List Char) : Bool :=
  let intPart := cs.takeWhile Char.isDigit
  let rest := cs.dropWhile Char.isDigit
  match rest with
  | '.' :: more =>
    let fracPart := more.takeWhile Char.isDigit
    (!intPart.isEmpty || !fracPart.isEmpty) && isExponentTail (more.dropWhile Char.isDigit)
  | _ => !intPart.isEmpty && isExponentTail rest

/-- `NonDecimalIntegerLiteral`: `0x`, `0o` or `0b` followed by digits of that radix. -/
def isNonDecimalInteger : List Char → Bool
  | '0' :: r :: ds =>
    !ds.isEmpty &&
      (if r = 'x' || r = 'X' then
        ds.all (fun c => c.isDigit || ('a' ≤ c && c ≤ 'f') || ('A' ≤ c && c ≤ 'F'))
      else if r = 'o' || r = 'O' then ds.all (fun c => '0' ≤ c && c ≤ '7')
      else if r = 'b' || r = 'B' then ds.all (fun c => c = '0' || c = '1')
      else false)
  | _ => false

/-- Largest integer below which every integer is a Number value: `2 ^ 53`. -/
def maxExactInteger : Nat := 9007199254740992

/-- The call `Number(raw)` on what `getAttribute` returned. `null` and text that is
empty after trimming give `0`; text outside the numeric grammar gives `NaN`;
`Infinity` with an optional sign gives the infinities; a signed run of decimal digits
of value at most `2 ^ 53` gives that integer. The value of every other numeric
literal (fraction, exponent, other radix, larger integers) needs binary rounding and
is left to `roundLiteral`, which the host supplies. -/
def toNumber (roundLiteral : String → JSNum) : Option String → JSNum
  | none => ⟨"0"⟩
  | some s =>
    let t := trimWhiteSpace s.data
    if t = [] then ⟨"0"⟩
    else if t = "Infinity".data || t = "+Infinity".data then ⟨"Infinity"⟩
    else if t = "-Infinity".data then ⟨"-Infinity"⟩
    else
      let body := match t with
        | '+' :: r => r
        | '-' :: r => r
        | _ => t
      if !body.isEmpty && body.all Char.isDigit && digitsValue body ≤ maxExactInteger then
        if t.head? = some '-' && digitsValue body ≠ 0 then ⟨"-" ++ toString (digitsValue body)⟩
        else ⟨toString (digitsValue body)⟩
      else if isUnsignedDecimal body || isNonDecimalInteger t then roundLiteral (String.mk t)
      else ⟨"NaN"⟩

/-! ## Page -/

/-- Element of the document: its attributes and its class list. -/
structure Element where
  attrs : List (String × String)
  classes : List String
deriving DecidableEq, Repr

/-- The call `el.getAttribute(name)`; `none` is `null`. -/
def Element.getAttribute (el : Element) (name : String) : Option String :=
  el.attrs.lookup name

/-- The test `el.classList.contains(c)`. -/
def Element.hasClass (el : Element) (c : String) : Bool :=
  el.classes.contains c

/-- The call `el.classList.add(c)`. -/
def Element.addClass (el : Element) (c : String) : Element :=
  if el.classes.contains c then el else { el with classes := el.classes ++ [c] }

/-- The call `el.classList.remove(c)`. -/
def Element.removeClass (el : Element) (c : String) : Element :=
  { el with classes := el.classes.filter (fun x => x != c) }

/-- Apply `f` to the element at position `i`. -/
def updateAt (f : Element → Element) (i : Nat) (page : List Element) : List Element :=
  match page[i]? with
  | some x => page.set i (f x)
  | none => page

/-- Whether the element at position `i` carries class `c`. -/
def carries (page : List Element) (i : Nat) (c : String) : Bool :=
  match page[i]? with
  | some x => x.hasClass c
  | none => false

/-- Whether an element matches the selector `[data-action="switch-opening"]`. -/
def isSwitchOpening (x : Element) : Bool :=
  x.getAttribute "data-action" == some "switch-opening"

/-- The loop
`querySelectorAll('[data-action="switch-opening"].is-selected').forEach(node => ...)`
of `onClick`, run over the elements from position `i` on: every match other than `el`
loses `is-selected`. -/
def clearOtherSelectedFrom (el : Nat) : Nat → List Element → List Element
  | _, [] => []
  | i, x :: xs =>
    (if isSwitchOpening x && x.hasClass "is-selected" && i != el
      then x.removeClass "is-selected" else x) :: clearOtherSelectedFrom el (i + 1) xs

/-- The selection-clearing loop over the whole document. -/
def clearOtherSelected (el : Nat) (page : List Element) : List Element :=
  clearOtherSelectedFrom el 0 page

/-! ## Chat host data -/

/-- The `swipes` collection of a message: an array of texts or an object keyed by
text. -/
inductive Swipes
  | array (items : List String)
  | mapping (entries : List (String × String))
deriving DecidableEq, Repr

/-- Own property of an array at key `key`: the item whose position renders as `key`. -/
def arrayEntry (key : String) : Nat → List String → Option String
  | _, [] => none
  | i, x :: xs => if toString i = key then some x else arrayEntry key (i + 1) xs

/-- The property access `swipes[swipeId]`; `none` is `undefined`. -/
def Swipes.entry (s : Swipes) (swipeId : JSNum) : Option String :=
  match s with
  | .array items => arrayEntry swipeId.repr 0 items
  | .mapping entries => entries.lookup swipeId.repr

/-- A chat message as far as the script reads it; `swipes = none` is a missing or
falsy `swipes` field. -/
structure Message where
  swipes : Option Swipes
deriving DecidableEq, Repr

/-- Result of calling a host function: a value, or a thrown value or rejection. -/
inductive HostResult (α : Type)
  | ok (value : α)
  | throws (e : JSError)

/-! ## World and host -/

/-- Call of one of the delivery channels used by `toast`. -/
inductive Delivery
  | slash (command : String)
  | log (tag : String) (msg : String)
  | alert (msg : String)
deriving DecidableEq, Repr

/-- Call of one of the two chat host functions, with its arguments. -/
inductive HostCall
  | getChatMessages (range : String) (includeSwipe : Bool)
  | setChatMessage (content : String) (position : Nat) (swipeId : JSNum) (refresh : String)
deriving DecidableEq, Repr

/-- Call of a browser facility by `copyText` or `openLink`. -/
inductive BrowserCall
  | writeText (text : String)
  | createTextarea (value : String)
  | execCommand (command : String)
  | removeTextarea
  | windowOpen (url : String) (target : String) (features : String)
deriving DecidableEq, Repr

/-- Everything the script reads and writes. -/
structure World where
  page : List Element
  loaded : Bool
  listeners : Nat
  notices : List (Severity × String)
  delivered : List Delivery
  hostCalls : List HostCall
  browser : List BrowserCall
deriving DecidableEq, Repr

/-- World after a call, and the exception that escaped it, if any. -/
structure Outcome where
  world : World
  thrown : Option JSError
deriving DecidableEq, Repr

/-- The surroundings of the script. An optional function is `none` when `typeof` does
not report `function`. A function answers from the world at the time of the call and
its arguments; `some e` is a throw (or rejection) of `e`. -/
structure Host where
  triggerSlash : Option (World → String → Option JSError)
  consoleLog : Option (World → String → String → Option JSError)
  alert : Option (World → String → Option JSError)
  getChatMessages : Option (World → HostResult (Option (List Message)))
  setChatMessage : Option (World → String → JSNum → Option JSError)
  writeText : Option (World → String → Option JSError)
  legacyCopy : World → String → HostResult Bool
  windowOpen : World → String → Option JSError
  roundLiteral : String → JSNum

/-- The value thrown when something that is not a function is called. -/
def notAFunction : JSError := ⟨"not a function", "TypeError: not a function"⟩

/-- Continue with `k` unless `o` threw. -/
def Outcome.andThen (o : Outcome) (k : World → Outcome) : Outcome :=
  match o.thrown with
  | none => k o.world
  | some _ => o

/-- The statement `try { body } catch {}`. -/
def tryIgnore (body : Outcome) : Outcome := ⟨body.world, none⟩

/-! ## Notification helper -/

/-- The call `window.triggerSlash(command)`. -/
def callTriggerSlash (slash : World → String → Option JSError) (command : String)
    (w : World) : Outcome :=
  ⟨{ w with delivered := w.delivered ++ [Delivery.slash command] }, slash w command⟩

/-- The call `console.log(tag, msg)`. -/
def callConsoleLog (h : Host) (tag msg : String) (w : World) : Outcome :=
  match h.consoleLog with
  | some log => ⟨{ w with delivered := w.delivered ++ [Delivery.log tag msg] }, log w tag msg⟩
  | none => ⟨w, some notAFunction⟩

/-- The call `alert(msg)`. -/
def callAlert (h : Host) (msg : String) (w : World) : Outcome :=
  match h.alert with
  | some alert => ⟨{ w with delivered := w.delivered ++ [Delivery.alert msg] }, alert w msg⟩
  | none => ⟨w, some notAFunction⟩

/-- The function `toast(msg, severity)`. Its invocation is recorded in `notices`. -/
def toast (h : Host) (msg : String) (severity : Severity) (w : World) : Outcome :=
  let w0 := { w with notices := w.notices ++ [(severity, msg)] }
  match h.triggerSlash with
  | some slash => callTriggerSlash slash ("/echo severity=" ++ severity.text ++ " " ++ msg) w0
  | none =>
    let o1 := tryIgnore (callConsoleLog h ("[HOME:" ++ severity.text ++ "]") msg w0)
    if severity = Severity.error ∨ severity = Severity.warning then
      tryIgnore (callAlert h msg o1.world)
    else o1

/-- The statement `try { body } catch (e) { handler }`. -/
def tryCatch (body : Outcome) (handler : JSError → World → Outcome) : Outcome :=
  match body.thrown with
  | none => body
  | some e => handler e body.world

/-- The statement `try { body } finally { cleanup }` for a cleanup that cannot throw. -/
def tryFinally (body : Outcome) (cleanup : World → World) : Outcome :=
  ⟨cleanup body.world, body.thrown⟩

/-! ## Clipboard copy and link opener -/

/-- The legacy branch of `copyText`: a hidden textarea and `document.execCommand`.
`legacyCopy` answers for `execCommand('copy')`. -/
def copyLegacy (h : Host) (text : String) (w : World) : Outcome :=
  let w1 := { w with browser := w.browser ++
    [BrowserCall.createTextarea text, BrowserCall.execCommand "copy"] }
  match h.legacyCopy w text with
  | .throws e => ⟨w1, some e⟩
  | .ok ok =>
    let w2 := { w1 with browser := w1.browser ++ [BrowserCall.removeTextarea] }
    if ok then toast h "已复制到剪贴板！" Severity.success w2
    else toast h ("复制失败，请手动复制：" ++ text) Severity.error w2

/-- The function `copyText(text)`. -/
def copyText (h : Host) (text : String) (w : World) : Outcome :=
  if text = "" then toast h "没有可复制的内容。" Severity.warning w
  else
    tryCatch
      (match h.writeText with
        | some write =>
          let w1 := { w with browser := w.browser ++ [BrowserCall.writeText text] }
          (match write w text with
            | some e => ⟨w1, some e⟩
            | none => toast h "已复制到剪贴板！" Severity.success w1)
        | none => copyLegacy h text w)
      (fun _ w1 => toast h ("复制失败，请手动复制：" ++ text) Severity.error w1)

/-- The function `openLink(url)`. -/
def openLink (h : Host) (url : String) (w : World) : Outcome :=
  if url = "" then toast h "缺少链接地址（data-url）。" Severity.error w
  else
    tryCatch
      ⟨{ w with browser := w.browser ++
          [BrowserCall.windowOpen url "_blank" "noopener,noreferrer"] }, h.windowOpen w url⟩
      (fun _ w1 => toast h ("无法打开链接，请手动复制：" ++ url) Severity.error w1)

/-! ## Variant switcher -/

/-- Apply `classList.add` of both feedback classes to the clicked element, if any. -/
def markPending (clickedEl : Option Nat) (w : World) : World :=
  match clickedEl with
  | some el =>
    { w with page :=
        updateAt (fun x => (x.addClass "is-disabled").addClass "is-selected") el w.page }
  | none => w

/-- The statement `if (clickedEl) clickedEl.classList.remove(c)`. -/
def unmark (clickedEl : Option Nat) (c : String) (w : World) : World :=
  match clickedEl with
  | some el => { w with page := updateAt (fun x => x.removeClass c) el w.page }
  | none => w

/-- The lines between the two host calls: `msg0`, `swipes`, `target` and the two
`throw` statements. A `target` that is `undefined`, `null` or the empty text is
falsy. -/
def resolveTarget (messages : Option (List Message)) (swipeId : JSNum) : HostResult String :=
  match messages.bind List.head? with
  | none => .throws (JSError.ofMessage "未找到第 0 条消息（messages[0]）。")
  | some msg0 =>
    let target := match msg0.swipes with
      | some swipes => swipes.entry swipeId
      | none => none
    match target with
    | some t =>
      if t ≠ "" then .ok t
      else .throws (JSError.ofMessage
        ("开场 swipe " ++ swipeId.repr ++ " 未找到。请确认已按顺序添加 swipes。"))
    | none => .throws (JSError.ofMessage
        ("开场 swipe " ++ swipeId.repr ++ " 未找到。请确认已按顺序添加 swipes。"))

/-- World in which `getChatMessages` has just been called. -/
def afterGet (w : World) : World :=
  { w with hostCalls := w.hostCalls ++ [HostCall.getChatMessages "0" true] }

/-- World in which `setChatMessage` has just been called. -/
def afterSet (target : String) (swipeId : JSNum) (w : World) : World :=
  { w with hostCalls := w.hostCalls ++
      [HostCall.setChatMessage target 0 swipeId "display_and_render_current"] }

/-- The host interaction inside the `try` block of `switchOpeningSwipe`: the awaited
call of `getChatMessages`, the resolution of `target`, the awaited call of
`setChatMessage`. -/
def hostSteps (get : World → HostResult (Option (List Message)))
    (set : World → String → JSNum → Option JSError) (swipeId : JSNum) (w : World) :
    Outcome :=
  match get w with
  | .throws e => ⟨afterGet w, some e⟩
  | .ok messages =>
    match resolveTarget messages swipeId with
    | .throws e => ⟨afterGet w, some e⟩
    | .ok target => ⟨afterSet target swipeId (afterGet w), set (afterGet w) target swipeId⟩

/-- The `try` block of `switchOpeningSwipe`: the host interaction, then the success
notification. -/
def switchBody (h : Host) (get : World → HostResult (Option (List Message)))
    (set : World → String → JSNum → Option JSError) (swipeId : JSNum) (w : World) :
    Outcome :=
  (hostSteps get set swipeId w).andThen
    (toast h ("已切换到开场 " ++ swipeId.repr ++ "。") Severity.success)

/-- The function `switchOpeningSwipe(swipeId, clickedEl)`. -/
def switchOpeningSwipe (h : Host) (swipeId : JSNum) (clickedEl : Option Nat) (w : World) :
    Outcome :=
  let w0 := markPending clickedEl w
  match h.getChatMessages, h.setChatMessage with
  | some get, some set =>
    tryFinally
      (tryCatch (switchBody h get set swipeId w0) (fun e w1 =>
        (toast h ("切换失败：" ++ e.describe) Severity.error w1).andThen
          (fun w2 => ⟨unmark clickedEl "is-selected" w2, none⟩)))
      (unmark clickedEl "is-disabled")
  | _, _ =>
    (toast h "当前环境未暴露 getChatMessages / setChatMessage，无法自动切换开场。"
        Severity.warning w0).andThen (fun w1 =>
      (toast h "你可以手动在第 0 条消息上滑动/切换 swipes。" Severity.info w1).andThen
        (fun w2 => ⟨unmark clickedEl "is-disabled" w2, none⟩))

/-! ## Click dispatcher and module body -/

/-- A click, given by its target followed by the ancestors of the target, innermost
first. The empty path stands for a target without `closest`. -/
structure ClickEvent where
  path : List Nat
deriving DecidableEq, Repr

/-- The call `e.target.closest('[data-action]')`: the first element of the path that
has the attribute, with its position. -/
def closestAction (page : List Element) (path : List Nat) : Option (Nat × Element) :=
  path.findSome? (fun i =>
    match page[i]? with
    | some x => if (x.getAttribute "data-action").isSome then some (i, x) else none
    | none => none)

/-- The function `onClick(e)`. -/
def onClick (h : Host) (e : ClickEvent) (w : World) : Outcome :=
  match closestAction w.page e.path with
  | none => ⟨w, none⟩
  | some (el, x) =>
    let action := x.getAttribute "data-action"
    if action = some "copy-qq" then copyText h ((x.getAttribute "data-qq").getD "") w
    else if action = some "open-link" then openLink h ((x.getAttribute "data-url").getD "") w
    else if action = some "switch-opening" then
      let raw := x.getAttribute "data-swipe"
      let swipeId := toNumber h.roundLiteral raw
      if !swipeId.isFinite then toast h "缺少或错误的 data-swipe（应为数字）。" Severity.error w
      else switchOpeningSwipe h swipeId (some el) { w with page := clearOtherSelected el w.page }
    else toast h ("未知 action：" ++ action.getD "null") Severity.warning w

/-- The module body: the load guard, the listener registration and the greeting. -/
def loadModule (h : Host) (w : World) : Outcome :=
  if w.loaded then ⟨w, none⟩
  else
    toast h "主页交互已加载。" Severity.info
      { w with loaded := true, listeners := w.listeners + 1 }

/-- Run the module body `n` times in a row. -/
def loadTimes (h : Host) : Nat → World → World
  | 0, w => w
  | n + 1, w => loadTimes h n (loadModule h w).world

/-- Run `n` registered copies of `onClick` on one click, one after the other; what a
listener throws is reported by the browser and does not stop the next one. -/
def runListeners (h : Host) (e : ClickEvent) : Nat → World → World
  | 0, w => w
  | n + 1, w => runListeners h e n (onClick h e w).world

/-- Deliver a click to every listener the module has registered. -/
def dispatchClick (h : Host) (e : ClickEvent) (w : World) : World :=
  runListeners h e w.listeners w

/-! ## Specification vocabulary -/

/-- Entry of message 0's variant collection at an index: `none` when message 0, its
collection or the entry is missing. -/
def variantAt (messages : Option (List Message)) (swipeId : JSNum) : Option String :=
  (messages.bind List.head?).bind (fun msg0 => msg0.swipes.bind (fun s => s.entry swipeId))

/-- The command function of the host, when present, returns on every call. -/
def Host.slashReturns (h : Host) : Prop :=
  ∀ slash, h.triggerSlash = some slash → ∀ w command, slash w command = none

/-- No element matching `[data-action="switch-opening"]` other than `el` carries
`is-selected`. -/
def noOtherSelected (page : List Element) (el : Nat) : Prop :=
  ∀ j y, j ≠ el → page[j]? = some y → isSwitchOpening y = true →
    y.hasClass "is-selected" = false

/-- A call of `setChatMessage`, whatever its arguments. -/
def HostCall.isSet : HostCall → Bool
  | .setChatMessage _ _ _ _ => true
  | .getChatMessages _ _ => false

/-! ## Sample surroundings -/

/-- Host with none of the optional functions. -/
def bareHost : Host where
  triggerSlash := none
  consoleLog := none
  alert := none
  getChatMessages := none
  setChatMessage := none
  writeText := none
  legacyCopy := fun _ _ => .ok true
  windowOpen := fun _ _ => none
  roundLiteral := fun _ => ⟨"NaN"⟩

/-- Host whose two chat functions are present and succeed, answering `messages`. -/
def chatHost (messages : Option (List Message)) : Host :=
  { bareHost with
    getChatMessages := some (fun _ => .ok messages)
    setChatMessage := some (fun _ _ _ => none) }

/-- Host whose command function throws on every call. -/
def throwingSlashHost : Host :=
  { bareHost with
    triggerSlash := some (fun _ _ => some (JSError.ofMessage "boom")) }

/-- Host with succeeding chat functions whose command function throws on every call. -/
def throwingSlashChatHost (messages : Option (List Message)) : Host :=
  { chatHost messages with
    triggerSlash := some (fun _ _ => some (JSError.ofMessage "boom")) }

/-- A switch-opening card. -/
def card (swipe : Option String) (classes : List String) : Element :=
  ⟨("data-action", "switch-opening") ::
    (match swipe with
      | some s => [("data-swipe", s)]
      | none => []), classes⟩

/-- A page of three cards, the second of them selected. -/
def samplePage : List Element :=
  [card (some "0") [], card (some "1") ["is-selected"], card (some "abc") []]

/-- A world on which the module has not run. -/
def freshWorld (page : List Element) : World :=
  ⟨page, false, 0, [], [], [], []⟩

/-- One message whose variants are an array of two texts. -/
def sampleMessages : Option (List Message) :=
  some [⟨some (.array ["first opening", "second opening"])⟩]

/-- One message whose variants are keyed by text. -/
def keyedMessages : Option (List Message) :=
  some [⟨some (.mapping [("0", "first opening"), ("1", "second opening")])⟩]

/-- One message whose first variant is the empty text. -/
def emptyVariantMessages : Option (List Message) :=
  some [⟨some (.array ["", "second opening"])⟩]

/-- A page whose first card has no `data-swipe` attribute and whose second card has an
empty one; the third card is selected. -/
def missingSwipePage : List Element :=
  [card none [], card (some "") [], card (some "1") ["is-selected"]]

/-! ## Auxiliary facts -/

theorem toast_fields (h : Host) (msg : String) (sev : Severity) (w : World) :
    (toast h msg sev w).world.page = w.page ∧
    (toast h msg sev w).world.loaded = w.loaded ∧
    (toast h msg sev w).world.listeners = w.listeners ∧
    (toast h msg sev w).world.hostCalls = w.hostCalls ∧
    (toast h msg sev w).world.browser = w.browser ∧
    (toast h msg sev w).world.notices = w.notices ++ [(sev, msg)] := by
  unfold toast
  cases h.triggerSlash with
  | some slash => simp [callTriggerSlash]
  | none =>
    cases hl : h.consoleLog <;> cases ha : h.alert <;> cases sev <;>
      simp [tryIgnore, callConsoleLog, callAlert, hl, ha]

@[simp] theorem toast_page (h : Host) (msg : String) (sev : Severity) (w : World) :
    (toast h msg sev w).world.page = w.page := (toast_fields h msg sev w).1

@[simp] theorem toast_loaded (h : Host) (msg : String) (sev : Severity) (w : World) :
    (toast h msg sev w).world.loaded = w.loaded := (toast_fields h msg sev w).2.1

@[simp] theorem toast_listeners (h : Host) (msg : String) (sev : Severity) (w : World) :
    (toast h msg sev w).world.listeners = w.listeners := (toast_fields h msg sev w).2.2.1

@[simp] theorem toast_hostCalls (h : Host) (msg : String) (sev : Severity) (w : World) :
    (toast h msg sev w).world.hostCalls = w.hostCalls := (toast_fields h msg sev w).2.2.2.1

@[simp] theorem toast_browser (h : Host) (msg : String) (sev : Severity) (w : World) :
    (toast h msg sev w).world.browser = w.browser := (toast_fields h msg sev w).2.2.2.2.1

@[simp] theorem toast_notices (h : Host) (msg : String) (sev : Severity) (w : World) :
    (toast h msg sev w).world.notices = w.notices ++ [(sev, msg)] :=
  (toast_fields h msg sev w).2.2.2.2.2

/-- When the command function is absent, or present and returning, `toast` returns,
whatever `console.log` and `alert` do. -/
theorem toast_returns (h : Host) (hs : h.slashReturns) (msg : String) (sev : Severity)
    (w : World) : (toast h msg sev w).thrown = none := by
  unfold toast
  cases hts : h.triggerSlash with
  | some slash => simp [callTriggerSlash, hs slash hts]
  | none => cases sev <;> simp [tryIgnore]

theorem isSwitchOpening_addClass (x : Element) (c : String) :
    isSwitchOpening (x.addClass c) = isSwitchOpening x := by
  unfold Element.addClass isSwitchOpening Element.getAttribute
  split <;> rfl

theorem isSwitchOpening_removeClass (x : Element) (c : String) :
    isSwitchOpening (x.removeClass c) = isSwitchOpening x := rfl

theorem hasClass_removeClass_self (x : Element) (c : String) :
    (x.removeClass c).hasClass c = false := by
  simp [Element.removeClass, Element.hasClass]

theorem hasClass_removeClass_of_ne (x : Element) (c d : String) (hne : d ≠ c) :
    (x.removeClass c).hasClass d = x.hasClass d := by
  simp [Element.removeClass, Element.hasClass, List.contains_eq_any_beq, List.any_filter, hne]

theorem hasClass_addClass_self (x : Element) (c : String) :
    (x.addClass c).hasClass c = true := by
  unfold Element.addClass Element.hasClass
  split
  · assumption
  · simp

theorem hasClass_addClass_of_ne (x : Element) (c d : String) (hne : d ≠ c) :
    (x.addClass c).hasClass d = x.hasClass d := by
  unfold Element.addClass Element.hasClass
  split
  · rfl
  · simp [hne]

theorem getElem?_updateAt (f : Element → Element) (i j : Nat) (page : List Element) :
    (updateAt f i page)[j]? = if j = i then (page[j]?).map f else page[j]? := by
  unfold updateAt
  cases hi : page[i]? with
  | none =>
    by_cases hji : j = i
    · subst hji; simp [hi]
    · simp [hji]
  | some x =>
    by_cases hji : j = i
    · subst hji
      have hlt : j < page.length := by
        rcases List.getElem?_eq_some_iff.mp hi with ⟨hlt, _⟩
        exact hlt
      simp [hi, List.getElem?_set_self, hlt]
    · have hij : i ≠ j := fun hEq => hji hEq.symm
      simp [hji, List.getElem?_set_ne hij]

theorem getElem?_clearOtherSelectedFrom (el : Nat) (page : List Element) :
    ∀ (i j : Nat), (clearOtherSelectedFrom el i page)[j]? =
      (page[j]?).map (fun x =>
        if isSwitchOpening x && x.hasClass "is-selected" && (i + j != el)
          then x.removeClass "is-selected" else x) := by
  induction page with
  | nil => intro i j; simp [clearOtherSelectedFrom]
  | cons x xs ih =>
    intro i j
    cases j with
    | zero => simp [clearOtherSelectedFrom]
    | succ j =>
      simp only [clearOtherSelectedFrom, List.getElem?_cons_succ]
      rw [ih (i + 1) j]
      have : i + 1 + j = i + (j + 1) := by omega
      rw [this]

/-! ## Notification helper: claims -/

/-- C7 (failing input). With a command function that throws, `toast` throws: for every
message, severity and world the exception of `triggerSlash` escapes the call, since that
call is the one channel not wrapped in `try`. -/
theorem toast_throws_when_triggerSlash_throws (msg : String) (sev : Severity) (w : World) :
    (toast throwingSlashHost msg sev w).thrown = some (JSError.ofMessage "boom") := by
  simp [toast, throwingSlashHost, bareHost, callTriggerSlash]

/-! ## Empty input to copy and open-link -/

/-- C9. On the empty text `copyText` calls `toast` once, with severity warning, and
touches neither the clipboard, the document nor the legacy copy command; on the empty
URL `openLink` calls `toast` once, with severity error and a message naming `data-url`,
and does not call `window.open`. Page and chat host are left alone in both cases. -/
theorem empty_input_only_notifies (h : Host) (w : World) :
    ((copyText h "" w).world.notices = w.notices ++ [(Severity.warning, "没有可复制的内容。")] ∧
      (copyText h "" w).world.browser = w.browser ∧
      (copyText h "" w).world.page = w.page ∧
      (copyText h "" w).world.hostCalls = w.hostCalls) ∧
    ((openLink h "" w).world.notices =
        w.notices ++ [(Severity.error, "缺少链接地址（data-url）。")] ∧
      (openLink h "" w).world.browser = w.browser ∧
      (openLink h "" w).world.page = w.page ∧
      (openLink h "" w).world.hostCalls = w.hostCalls) := by
  simp [copyText, openLink]

/-! ## Dispatcher: unparseable index -/

/-- C5. A click whose nearest action element is a switch-opening element with a
`data-swipe` text that `Number` does not turn into a finite number makes `onClick` call
`toast` once, with severity error, call neither chat function and leave every element
of the page as it was. -/
theorem onClick_invalid_swipe (h : Host) (e : ClickEvent) (w : World) (el : Nat)
    (x : Element)
    (hel : closestAction w.page e.path = some (el, x))
    (hact : x.getAttribute "data-action" = some "switch-opening")
    (hnum : (toNumber h.roundLiteral (x.getAttribute "data-swipe")).isFinite = false) :
    (onClick h e w).world.notices =
        w.notices ++ [(Severity.error, "缺少或错误的 data-swipe（应为数字）。")] ∧
      (onClick h e w).world.hostCalls = w.hostCalls ∧
      (onClick h e w).world.page = w.page := by
  simp [onClick, hel, hact, hnum]

/-- Witness for C5: a click on the third sample card, whose `data-swipe` is `abc`; the
texts `Infinity` and `NaN` are rejected by `Number.isFinite` in the same way. -/
theorem onClick_invalid_swipe_witness :
    ((toNumber bareHost.roundLiteral (some "Infinity")).isFinite = false ∧
      (toNumber bareHost.roundLiteral (some "NaN")).isFinite = false) ∧
    ((onClick bareHost ⟨[2]⟩ (freshWorld samplePage)).world.notices =
        [] ++ [(Severity.error, "缺少或错误的 data-swipe（应为数字）。")] ∧
      (onClick bareHost ⟨[2]⟩ (freshWorld samplePage)).world.hostCalls = [] ∧
      (onClick bareHost ⟨[2]⟩ (freshWorld samplePage)).world.page = samplePage) :=
  ⟨by decide,
    onClick_invalid_swipe bareHost ⟨[2]⟩ (freshWorld samplePage) 2 (card (some "abc") [])
      (by decide) (by decide) (by decide)⟩

/-! ## Module body -/

theorem loadModule_loaded (h : Host) (w : World) : (loadModule h w).world.loaded = true := by
  unfold loadModule
  by_cases hl : w.loaded = true
  · simp [hl]
  · simp [hl]

theorem loadModule_of_loaded (h : Host) (w : World) (hl : w.loaded = true) :
    loadModule h w = ⟨w, none⟩ := by
  simp [loadModule, hl]

theorem loadTimes_of_loaded (h : Host) (n : Nat) (w : World) (hl : w.loaded = true) :
    loadTimes h n w = w := by
  induction n with
  | zero => rfl
  | succ n ih => simp [loadTimes, loadModule, hl, ih]

/-- C8. After a first run of the module body, every later run changes nothing: it
registers no listener, calls `toast` not at all and returns. So the world after any
number of runs is the world after one run, a click is handled there exactly as after one
run, and on a page where the module had not run before exactly one listener is
registered. -/
theorem loadModule_idempotent (h : Host) (w : World) (n : Nat) (e : ClickEvent) :
    loadModule h (loadModule h w).world = ⟨(loadModule h w).world, none⟩ ∧
    loadTimes h (n + 1) w = (loadModule h w).world ∧
    (loadTimes h (n + 1) w).notices = (loadModule h w).world.notices ∧
    dispatchClick h e (loadTimes h (n + 1) w) = dispatchClick h e (loadModule h w).world ∧
    (w.loaded = false → w.listeners = 0 → (loadTimes h (n + 1) w).listeners = 1) := by
  have hrun : loadTimes h (n + 1) w = (loadModule h w).world := by
    simp [loadTimes, loadTimes_of_loaded h n _ (loadModule_loaded h w)]
  refine ⟨?_, hrun, by rw [hrun], by rw [hrun], ?_⟩
  · exact loadModule_of_loaded h _ (loadModule_loaded h w)
  · intro hfresh hnone
    rw [hrun]
    simp [loadModule, hfresh, hnone]

/-- Witness for C8: three runs of the module body on a fresh sample page. -/
theorem loadModule_idempotent_witness :
    (freshWorld samplePage).loaded = false ∧ (freshWorld samplePage).listeners = 0 ∧
      (loadTimes bareHost (2 + 1) (freshWorld samplePage)).listeners = 1 :=
  ⟨rfl, rfl,
    (loadModule_idempotent bareHost (freshWorld samplePage) 2 ⟨[0]⟩).2.2.2.2 rfl rfl⟩

/-! ## Dispatcher: missing index -/

/-- C6 (failing input). On a switch-opening card without `data-swipe`, and on one whose
`data-swipe` is empty, `Number` yields `0`, which is finite: `onClick` does not report
the error but clears the selection of the other cards and runs `switchOpeningSwipe`
with index `0`, which calls both chat functions. -/
theorem onClick_missing_swipe_switches_to_zero :
    (toNumber (chatHost sampleMessages).roundLiteral none = ⟨"0"⟩ ∧
      toNumber (chatHost sampleMessages).roundLiteral (some "") = ⟨"0"⟩) ∧
    (onClick (chatHost sampleMessages) ⟨[0]⟩ (freshWorld missingSwipePage)).world =
      ⟨[card none ["is-selected"], card (some "") [], card (some "1") []], false, 0,
        [(Severity.success, "已切换到开场 0。")], [],
        [HostCall.getChatMessages "0" true,
          HostCall.setChatMessage "first opening" 0 ⟨"0"⟩ "display_and_render_current"],
        []⟩ ∧
    (onClick (chatHost sampleMessages) ⟨[1]⟩ (freshWorld missingSwipePage)).world =
      ⟨[card none [], card (some "") ["is-selected"], card (some "1") []], false, 0,
        [(Severity.success, "已切换到开场 0。")], [],
        [HostCall.getChatMessages "0" true,
          HostCall.setChatMessage "first opening" 0 ⟨"0"⟩ "display_and_render_current"],
        []⟩ := by
  decide

/-! ## Variant switcher without chat functions -/

/-- C3 (failing input). Without the chat functions and with a command function that
throws, `switchOpeningSwipe` calls `toast` with severity warning and calls no chat
function, but the exception of `toast` leaves the function before the line that removes
`is-disabled`: the clicked element keeps the class, for every index. -/
theorem switch_without_host_keeps_disabled (swipeId : JSNum) :
    (switchOpeningSwipe throwingSlashHost swipeId (some 0) (freshWorld samplePage)).world =
      ⟨[card (some "0") ["is-disabled", "is-selected"], card (some "1") ["is-selected"],
          card (some "abc") []], false, 0,
        [(Severity.warning,
          "当前环境未暴露 getChatMessages / setChatMessage，无法自动切换开场。")],
        [Delivery.slash
          "/echo severity=warning 当前环境未暴露 getChatMessages / setChatMessage，无法自动切换开场。"],
        [], []⟩ ∧
    carries (switchOpeningSwipe throwingSlashHost swipeId (some 0)
      (freshWorld samplePage)).world.page 0 "is-disabled" = true ∧
    (switchOpeningSwipe throwingSlashHost swipeId (some 0) (freshWorld samplePage)).thrown =
      some (JSError.ofMessage "boom") := by
  refine ⟨?_, ?_, ?_⟩ <;> rfl

/-! ## Variant switcher: auxiliary facts -/

@[simp] theorem markPending_notices (c : Option Nat) (w : World) :
    (markPending c w).notices = w.notices := by
  cases c <;> rfl

@[simp] theorem markPending_hostCalls (c : Option Nat) (w : World) :
    (markPending c w).hostCalls = w.hostCalls := by
  cases c <;> rfl

@[simp] theorem unmark_notices (c : Option Nat) (cls : String) (w : World) :
    (unmark c cls w).notices = w.notices := by
  cases c <;> rfl

@[simp] theorem unmark_hostCalls (c : Option Nat) (cls : String) (w : World) :
    (unmark c cls w).hostCalls = w.hostCalls := by
  cases c <;> rfl

theorem hostSteps_fields (get : World → HostResult (Option (List Message)))
    (set : World → String → JSNum → Option JSError) (n : JSNum) (w : World) :
    (hostSteps get set n w).world.page = w.page ∧
      (hostSteps get set n w).world.notices = w.notices := by
  unfold hostSteps
  split
  · exact ⟨rfl, rfl⟩
  · split <;> exact ⟨rfl, rfl⟩

@[simp] theorem hostSteps_page (get : World → HostResult (Option (List Message)))
    (set : World → String → JSNum → Option JSError) (n : JSNum) (w : World) :
    (hostSteps get set n w).world.page = w.page := (hostSteps_fields get set n w).1

@[simp] theorem hostSteps_notices (get : World → HostResult (Option (List Message)))
    (set : World → String → JSNum → Option JSError) (n : JSNum) (w : World) :
    (hostSteps get set n w).world.notices = w.notices := (hostSteps_fields get set n w).2

/-- What `resolveTarget` yields, in terms of the entry of message 0's collection. -/
theorem resolveTarget_eq (messages : Option (List Message)) (n : JSNum) :
    (∀ v, variantAt messages n = some v → v ≠ "" → resolveTarget messages n = .ok v) ∧
    (variantAt messages n = some "" → ∃ e, resolveTarget messages n = .throws e) ∧
    (variantAt messages n = none → ∃ e, resolveTarget messages n = .throws e) := by
  unfold variantAt resolveTarget
  cases hm : messages.bind List.head? with
  | none => simp
  | some msg0 =>
    obtain ⟨sw⟩ := msg0
    cases sw with
    | none => simp
    | some s =>
      cases hen : s.entry n with
      | none => simp [hen]
      | some t =>
        by_cases ht : t = ""
        · simp [hen, ht]
        · simp [hen, ht]

theorem carries_unmark_self (el : Nat) (cls : String) (w : World) :
    carries (unmark (some el) cls w).page el cls = false := by
  unfold carries unmark
  simp only [getElem?_updateAt, if_true]
  cases w.page[el]? with
  | none => rfl
  | some x => simp [hasClass_removeClass_self]

theorem carries_unmark_of_ne (el : Nat) (cls d : String) (hne : d ≠ cls) (w : World) :
    carries (unmark (some el) cls w).page el d = carries w.page el d := by
  unfold carries unmark
  simp only [getElem?_updateAt, if_true]
  cases w.page[el]? with
  | none => rfl
  | some x => simp [hasClass_removeClass_of_ne x cls d hne]

theorem carries_markPending_selected (el : Nat) (w : World) (x : Element)
    (hx : w.page[el]? = some x) :
    carries (markPending (some el) w).page el "is-selected" = true := by
  unfold carries markPending
  simp only [getElem?_updateAt, if_true, hx]
  simp [hasClass_addClass_self]

theorem getElem?_unmark_of_ne (el j : Nat) (cls : String) (w : World) (hne : j ≠ el) :
    (unmark (some el) cls w).page[j]? = w.page[j]? := by
  simp [unmark, getElem?_updateAt, hne]

theorem getElem?_markPending_of_ne (el j : Nat) (w : World) (hne : j ≠ el) :
    (markPending (some el) w).page[j]? = w.page[j]? := by
  simp [markPending, getElem?_updateAt, hne]

theorem noOtherSelected_clearOtherSelected (el : Nat) (page : List Element) :
    noOtherSelected (clearOtherSelected el page) el := by
  intro j y hne hy hsw
  unfold clearOtherSelected at hy
  rw [getElem?_clearOtherSelectedFrom] at hy
  cases hx : page[j]? with
  | none => simp [hx] at hy
  | some x =>
    simp only [hx, Option.map_some', Option.some.injEq, Nat.zero_add] at hy
    by_cases hc : (isSwitchOpening x && x.hasClass "is-selected" && (j != el)) = true
    · rw [if_pos hc] at hy
      rw [← hy]
      exact hasClass_removeClass_self x "is-selected"
    · rw [if_neg hc] at hy
      subst hy
      simp [hsw, hne] at hc
      exact hc

theorem noOtherSelected_of_agree (page page2 : List Element) (el : Nat)
    (hagree : ∀ j, j ≠ el → page2[j]? = page[j]?) (hp : noOtherSelected page el) :
    noOtherSelected page2 el := by
  intro j y hne hy hsw
  rw [hagree j hne] at hy
  exact hp j y hne hy hsw

theorem closestAction_getElem? (page : List Element) (path : List Nat) (el : Nat)
    (x : Element) (hel : closestAction page path = some (el, x)) : page[el]? = some x := by
  unfold closestAction at hel
  rcases List.exists_of_findSome?_eq_some hel with ⟨i, _, hi⟩
  cases hp : page[i]? with
  | none => simp [hp] at hi
  | some y =>
    simp only [hp] at hi
    split at hi
    · simp only [Option.some.injEq, Prod.mk.injEq] at hi
      rcases hi with ⟨h1, h2⟩
      subst h1; subst h2
      exact hp
    · simp at hi

theorem switch_present (h : Host) (n : JSNum) (c : Option Nat) (w : World)
    (get : World → HostResult (Option (List Message)))
    (set : World → String → JSNum → Option JSError)
    (hget : h.getChatMessages = some get) (hset : h.setChatMessage = some set) :
    switchOpeningSwipe h n c w =
      tryFinally
        (tryCatch (switchBody h get set n (markPending c w)) (fun e w1 =>
          (toast h ("切换失败：" ++ e.describe) Severity.error w1).andThen
            (fun w2 => ⟨unmark c "is-selected" w2, none⟩)))
        (unmark c "is-disabled") := by
  simp [switchOpeningSwipe, hget, hset]

/-- Outcome of `switchOpeningSwipe` when the host interaction throws `err`. -/
theorem switch_of_failed (h : Host) (n : JSNum) (c : Option Nat) (w : World)
    (get : World → HostResult (Option (List Message)))
    (set : World → String → JSNum → Option JSError)
    (hget : h.getChatMessages = some get) (hset : h.setChatMessage = some set)
    (err : JSError) (hfail : (hostSteps get set n (markPending c w)).thrown = some err) :
    switchOpeningSwipe h n c w =
      tryFinally
        ((toast h ("切换失败：" ++ err.describe) Severity.error
            (hostSteps get set n (markPending c w)).world).andThen
          (fun w2 => ⟨unmark c "is-selected" w2, none⟩))
        (unmark c "is-disabled") := by
  rw [switch_present h n c w get set hget hset]
  simp [switchBody, Outcome.andThen, tryCatch, hfail]

/-- Page, notices and completion of `switchOpeningSwipe` when the host interaction
throws: one error notice; `is-disabled` removed; `is-selected` removed when the call
returns; and the call returns when the command function does. -/
theorem switch_failed_effects (h : Host) (n : JSNum) (c : Option Nat) (w : World)
    (get : World → HostResult (Option (List Message)))
    (set : World → String → JSNum → Option JSError)
    (hget : h.getChatMessages = some get) (hset : h.setChatMessage = some set)
    (err : JSError) (hfail : (hostSteps get set n (markPending c w)).thrown = some err) :
    (switchOpeningSwipe h n c w).world.notices =
        w.notices ++ [(Severity.error, "切换失败：" ++ err.describe)] ∧
      (∀ el, c = some el →
        carries (switchOpeningSwipe h n c w).world.page el "is-disabled" = false ∧
        ((switchOpeningSwipe h n c w).thrown = none →
          carries (switchOpeningSwipe h n c w).world.page el "is-selected" = false)) ∧
      (∀ el j, c = some el → j ≠ el →
        (switchOpeningSwipe h n c w).world.page[j]? = w.page[j]?) ∧
      (h.slashReturns → (switchOpeningSwipe h n c w).thrown = none) := by
  rw [switch_of_failed h n c w get set hget hset err hfail]
  cases ht : (toast h ("切换失败：" ++ err.describe) Severity.error
      (hostSteps get set n (markPending c w)).world).thrown with
  | none =>
    refine ⟨by simp [tryFinally, Outcome.andThen, ht], ?_, ?_, ?_⟩
    · intro el hc
      subst hc
      refine ⟨?_, fun _ => ?_⟩
      · simp only [tryFinally, Outcome.andThen, ht]
        exact carries_unmark_self el "is-disabled" _
      · simp only [tryFinally, Outcome.andThen, ht]
        rw [carries_unmark_of_ne el "is-disabled" "is-selected" (by decide)]
        exact carries_unmark_self el "is-selected" _
    · intro el j hc hne
      subst hc
      simp only [tryFinally, Outcome.andThen, ht]
      rw [getElem?_unmark_of_ne el j _ _ hne, getElem?_unmark_of_ne el j _ _ hne]
      simp [getElem?_markPending_of_ne el j w hne]
    · intro _
      simp [tryFinally, Outcome.andThen, ht]
  | some e2 =>
    refine ⟨by simp [tryFinally, Outcome.andThen, ht], ?_, ?_, ?_⟩
    · intro el hc
      subst hc
      refine ⟨?_, fun hthrown => ?_⟩
      · simp only [tryFinally, Outcome.andThen, ht]
        exact carries_unmark_self el "is-disabled" _
      · simp [tryFinally, Outcome.andThen, ht] at hthrown
    · intro el j hc hne
      subst hc
      simp only [tryFinally, Outcome.andThen, ht]
      rw [getElem?_unmark_of_ne el j _ _ hne]
      simp [getElem?_markPending_of_ne el j w hne]
    · intro hs
      rw [toast_returns h hs] at ht
      cases ht

theorem tryCatch_hostCalls (h : Host) (c : Option Nat) (body : Outcome) :
    (tryCatch body (fun e w1 =>
      (toast h ("切换失败：" ++ e.describe) Severity.error w1).andThen
        (fun w2 => ⟨unmark c "is-selected" w2, none⟩))).world.hostCalls =
      body.world.hostCalls := by
  unfold tryCatch
  cases hb : body.thrown with
  | none => rfl
  | some e =>
    simp only [Outcome.andThen]
    cases ht : (toast h ("切换失败：" ++ e.describe) Severity.error body.world).thrown <;> simp

/-- The chat host calls made by `switchOpeningSwipe` are those of its host interaction. -/
theorem switch_hostCalls (h : Host) (n : JSNum) (c : Option Nat) (w : World)
    (get : World → HostResult (Option (List Message)))
    (set : World → String → JSNum → Option JSError)
    (hget : h.getChatMessages = some get) (hset : h.setChatMessage = some set) :
    (switchOpeningSwipe h n c w).world.hostCalls =
      (hostSteps get set n (markPending c w)).world.hostCalls := by
  rw [switch_present h n c w get set hget hset]
  simp only [tryFinally, unmark_hostCalls]
  rw [tryCatch_hostCalls]
  simp only [switchBody, Outcome.andThen]
  cases hs : (hostSteps get set n (markPending c w)).thrown <;> simp

/-- Without one of the chat functions `switchOpeningSwipe` calls neither. -/
theorem switch_hostCalls_absent (h : Host) (n : JSNum) (c : Option Nat) (w : World)
    (habs : h.getChatMessages = none ∨ h.setChatMessage = none) :
    (switchOpeningSwipe h n c w).world.hostCalls = w.hostCalls := by
  have key : switchOpeningSwipe h n c w =
      (toast h "当前环境未暴露 getChatMessages / setChatMessage，无法自动切换开场。"
        Severity.warning (markPending c w)).andThen (fun w1 =>
      (toast h "你可以手动在第 0 条消息上滑动/切换 swipes。" Severity.info w1).andThen
        (fun w2 => ⟨unmark c "is-disabled" w2, none⟩)) := by
    unfold switchOpeningSwipe
    rcases habs with hg | hs
    · simp [hg]
    · cases hg : h.getChatMessages <;> simp [hs]
  rw [key]
  simp only [Outcome.andThen]
  cases h1 : (toast h "当前环境未暴露 getChatMessages / setChatMessage，无法自动切换开场。"
        Severity.warning (markPending c w)).thrown with
  | some e => simp
  | none =>
    simp only []
    cases h2 : (toast h "你可以手动在第 0 条消息上滑动/切换 swipes。" Severity.info
      (toast h "当前环境未暴露 getChatMessages / setChatMessage，无法自动切换开场。"
        Severity.warning (markPending c w)).world).thrown <;> simp

/-- The chat host calls of the host interaction: `getChatMessages` always, then
`setChatMessage` exactly when message 0's collection has a non-empty entry. -/
theorem hostSteps_hostCalls (get : World → HostResult (Option (List Message)))
    (set : World → String → JSNum → Option JSError) (n : JSNum) (w : World) :
    (∀ msgs v, get w = .ok msgs → variantAt msgs n = some v → v ≠ "" →
      hostSteps get set n w =
        ⟨afterSet v n (afterGet w), set (afterGet w) v n⟩) ∧
    ((∀ msgs v, get w = .ok msgs → variantAt msgs n = some v → v = "") →
      (hostSteps get set n w).world = afterGet w ∧
        (hostSteps get set n w).thrown ≠ none) := by
  constructor
  · intro msgs v hg hv hne
    simp [hostSteps, hg, (resolveTarget_eq msgs n).1 v hv hne]
  · intro hno
    unfold hostSteps
    cases hg : get w with
    | throws e => simp
    | ok msgs =>
      cases hv : variantAt msgs n with
      | none =>
        obtain ⟨e, he⟩ := (resolveTarget_eq msgs n).2.2 hv
        simp [he]
      | some v =>
        have hv0 : v = "" := hno msgs v hg hv
        subst hv0
        obtain ⟨e, he⟩ := (resolveTarget_eq msgs n).2.1 hv
        simp [he]

/-! ## Variant switcher: missing variant -/

/-- What holds of a missing variant in every surrounding. With both chat functions
present, when `getChatMessages` answers and message 0, its variant collection or the
entry at the requested index is missing, `switchOpeningSwipe` calls `toast` once, with
severity error; its only chat host call is `getChatMessages`, so `setChatMessage` is not
called; the triggering element ends without `is-disabled`, and without `is-selected`
once the call has returned; and the call does return whenever the command function of
the host does. -/
theorem switch_missing_variant_reports_error (h : Host) (n : JSNum) (c : Option Nat)
    (w : World) (get : World → HostResult (Option (List Message)))
    (set : World → String → JSNum → Option JSError) (msgs : Option (List Message))
    (hget : h.getChatMessages = some get) (hset : h.setChatMessage = some set)
    (hmsgs : get (markPending c w) = .ok msgs) (hnone : variantAt msgs n = none) :
    (∃ text, (switchOpeningSwipe h n c w).world.notices =
        w.notices ++ [(Severity.error, text)]) ∧
      (switchOpeningSwipe h n c w).world.hostCalls =
        w.hostCalls ++ [HostCall.getChatMessages "0" true] ∧
      (∀ el, c = some el →
        carries (switchOpeningSwipe h n c w).world.page el "is-disabled" = false ∧
        ((switchOpeningSwipe h n c w).thrown = none →
          carries (switchOpeningSwipe h n c w).world.page el "is-selected" = false)) ∧
      (h.slashReturns → (switchOpeningSwipe h n c w).thrown = none) := by
  have hno : ∀ msgs2 v, get (markPending c w) = .ok msgs2 → variantAt msgs2 n = some v →
      v = "" := by
    intro msgs2 v hg hv
    rw [hmsgs] at hg
    cases hg
    rw [hnone] at hv
    cases hv
  obtain ⟨hworld, hthrown⟩ := (hostSteps_hostCalls get set n (markPending c w)).2 hno
  obtain ⟨err, herr⟩ := Option.ne_none_iff_exists'.mp hthrown
  obtain ⟨h1, h2, _, h4⟩ := switch_failed_effects h n c w get set hget hset err herr
  refine ⟨⟨_, h1⟩, ?_, h2, h4⟩
  rw [switch_hostCalls h n c w get set hget hset, hworld]
  simp [afterGet]

/-- Instance of the preceding fact: index 5 on a message with two variants, from the
first sample card, the host having no command function. -/
theorem switch_missing_variant_reports_error_witness :
    variantAt sampleMessages ⟨"5"⟩ = none ∧
      (switchOpeningSwipe (chatHost sampleMessages) ⟨"5"⟩ (some 0)
        (freshWorld samplePage)).world.hostCalls = [] ++ [HostCall.getChatMessages "0" true] ∧
      carries (switchOpeningSwipe (chatHost sampleMessages) ⟨"5"⟩ (some 0)
        (freshWorld samplePage)).world.page 0 "is-disabled" = false ∧
      carries (switchOpeningSwipe (chatHost sampleMessages) ⟨"5"⟩ (some 0)
        (freshWorld samplePage)).world.page 0 "is-selected" = false :=
  have key := switch_missing_variant_reports_error (chatHost sampleMessages) ⟨"5"⟩ (some 0)
    (freshWorld samplePage) (fun _ => .ok sampleMessages) (fun _ _ _ => none) sampleMessages
    rfl rfl rfl (by decide)
  ⟨by decide, key.2.1, (key.2.2.1 0 rfl).1, (key.2.2.1 0 rfl).2 (by decide)⟩

/-- C2 (failing input). Both chat functions are present, message 0 has no entry at
index 5 and the command function of the host throws: `switchOpeningSwipe` records the
error notice and calls `getChatMessages` only, the `finally` block removes `is-disabled`,
but the exception of `toast` leaves the `catch` block before the line that removes
`is-selected`, so the triggering element ends with `is-selected`. -/
theorem switch_missing_variant_stays_selected :
    variantAt sampleMessages ⟨"5"⟩ = none ∧
      (switchOpeningSwipe (throwingSlashChatHost sampleMessages) ⟨"5"⟩ (some 0)
        (freshWorld samplePage)).world.notices =
          [(Severity.error, "切换失败：开场 swipe 5 未找到。请确认已按顺序添加 swipes。")] ∧
      (switchOpeningSwipe (throwingSlashChatHost sampleMessages) ⟨"5"⟩ (some 0)
        (freshWorld samplePage)).world.hostCalls = [HostCall.getChatMessages "0" true] ∧
      carries (switchOpeningSwipe (throwingSlashChatHost sampleMessages) ⟨"5"⟩ (some 0)
        (freshWorld samplePage)).world.page 0 "is-disabled" = false ∧
      carries (switchOpeningSwipe (throwingSlashChatHost sampleMessages) ⟨"5"⟩ (some 0)
        (freshWorld samplePage)).world.page 0 "is-selected" = true ∧
      (switchOpeningSwipe (throwingSlashChatHost sampleMessages) ⟨"5"⟩ (some 0)
        (freshWorld samplePage)).thrown = some (JSError.ofMessage "boom") := by
  decide

/-! ## Dispatcher: failed switch -/

/-- When the host interaction throws: `getChatMessages` threw, or `resolveTarget` threw
(message 0 missing, entry missing or empty), or `setChatMessage` threw. -/
theorem hostSteps_thrown_iff (get : World → HostResult (Option (List Message)))
    (set : World → String → JSNum → Option JSError) (n : JSNum) (w : World) (err : JSError) :
    (hostSteps get set n w).thrown = some err ↔
      (get w = .throws err ∨
        (∃ msgs, get w = .ok msgs ∧ resolveTarget msgs n = .throws err) ∨
        (∃ msgs v, get w = .ok msgs ∧ resolveTarget msgs n = .ok v ∧
          set (afterGet w) v n = some err)) := by
  unfold hostSteps
  cases hg : get w with
  | throws e => simp
  | ok msgs =>
    cases hr : resolveTarget msgs n with
    | throws e => simp [hr]
    | ok v => simp [hr]

/-- What holds of a failed switch in every surrounding. With both chat functions
present, a click on a switch-opening element whose index is finite and whose host
interaction fails leaves, when the handler returns, no element matching
`[data-action="switch-opening"]` with `is-selected`: the clicked element is deselected
again and the selection cleared before the switch stays cleared. The handler does
return whenever the command function of the host returns. -/
theorem click_failed_switch_leaves_none_selected (h : Host) (e : ClickEvent) (w : World)
    (el : Nat) (x : Element) (get : World → HostResult (Option (List Message)))
    (set : World → String → JSNum → Option JSError) (err : JSError)
    (hel : closestAction w.page e.path = some (el, x))
    (hact : x.getAttribute "data-action" = some "switch-opening")
    (hfin : (toNumber h.roundLiteral (x.getAttribute "data-swipe")).isFinite = true)
    (hget : h.getChatMessages = some get) (hset : h.setChatMessage = some set)
    (hfail : (hostSteps get set (toNumber h.roundLiteral (x.getAttribute "data-swipe"))
      (markPending (some el) { w with page := clearOtherSelected el w.page })).thrown =
        some err) :
    (h.slashReturns → (onClick h e w).thrown = none) ∧
    ((onClick h e w).thrown = none →
      ∀ (j : Nat) (y : Element), (onClick h e w).world.page[j]? = some y →
        isSwitchOpening y = true → y.hasClass "is-selected" = false) := by
  have hclick : onClick h e w =
      switchOpeningSwipe h (toNumber h.roundLiteral (x.getAttribute "data-swipe")) (some el)
        { w with page := clearOtherSelected el w.page } := by
    simp [onClick, hel, hact, hfin]
  rw [hclick]
  obtain ⟨_, h2, h3, h4⟩ := switch_failed_effects h _ (some el) _ get set hget hset err hfail
  refine ⟨h4, ?_⟩
  intro hdone j y hy hsw
  by_cases hj : j = el
  · subst hj
    have hc := (h2 j rfl).2 hdone
    unfold carries at hc
    rw [hy] at hc
    exact hc
  · rw [h3 el j rfl hj] at hy
    exact noOtherSelected_clearOtherSelected el w.page j y hj hy hsw

/-- Instance of the preceding fact: a click on the first sample card while the second
is selected, the host answering with no message at all and having no command function. -/
theorem click_failed_switch_leaves_none_selected_witness :
    (onClick (chatHost (some [])) ⟨[0]⟩ (freshWorld samplePage)).thrown = none ∧
      ∀ (j : Nat) (y : Element), (onClick (chatHost (some [])) ⟨[0]⟩
          (freshWorld samplePage)).world.page[j]? = some y →
        isSwitchOpening y = true → y.hasClass "is-selected" = false :=
  have key := click_failed_switch_leaves_none_selected (chatHost (some [])) ⟨[0]⟩
    (freshWorld samplePage) 0 (card (some "0") []) (fun _ => .ok (some []))
    (fun _ _ _ => none) (JSError.ofMessage "未找到第 0 条消息（messages[0]）。")
    (by decide) (by decide) (by decide) rfl rfl (by decide)
  ⟨key.1 (by intro slash hsl; cases hsl), key.2 (key.1 (by intro slash hsl; cases hsl))⟩

/-- C10 (failing input). Both chat functions are present, the host answers with no
message 0 and its command function throws. A click on the first sample card, whose index
0 is finite, clears the selection of the second card and marks the first; the host
interaction fails, the `catch` block calls `toast`, whose exception leaves the block
before the line that removes `is-selected`. The handler settles by rejecting and the
clicked card still carries `is-selected`. -/
theorem click_failed_switch_stays_selected :
    (toNumber (throwingSlashChatHost (some [])).roundLiteral (some "0")).isFinite = true ∧
      (onClick (throwingSlashChatHost (some [])) ⟨[0]⟩ (freshWorld samplePage)).world.page =
        [card (some "0") ["is-selected"], card (some "1") [], card (some "abc") []] ∧
      (onClick (throwingSlashChatHost (some [])) ⟨[0]⟩
        (freshWorld samplePage)).world.hostCalls = [HostCall.getChatMessages "0" true] ∧
      (onClick (throwingSlashChatHost (some [])) ⟨[0]⟩ (freshWorld samplePage)).world.notices =
        [(Severity.error, "切换失败：未找到第 0 条消息（messages[0]）。")] ∧
      carries (onClick (throwingSlashChatHost (some [])) ⟨[0]⟩
        (freshWorld samplePage)).world.page 0 "is-selected" = true ∧
      (onClick (throwingSlashChatHost (some [])) ⟨[0]⟩ (freshWorld samplePage)).thrown =
        some (JSError.ofMessage "boom") := by
  decide

/-! ## Variant switcher: existing variant -/

theorem getElem?_clearOtherSelected_self (el : Nat) (page : List Element) (x : Element)
    (hx : page[el]? = some x) : (clearOtherSelected el page)[el]? = some x := by
  unfold clearOtherSelected
  rw [getElem?_clearOtherSelectedFrom, hx]
  simp

/-- Outcome of `switchOpeningSwipe` when the host interaction and the success
notification both return. -/
theorem switch_of_ok (h : Host) (n : JSNum) (c : Option Nat) (w : World)
    (get : World → HostResult (Option (List Message)))
    (set : World → String → JSNum → Option JSError)
    (hget : h.getChatMessages = some get) (hset : h.setChatMessage = some set)
    (hok : (hostSteps get set n (markPending c w)).thrown = none)
    (htoast : (toast h ("已切换到开场 " ++ n.repr ++ "。") Severity.success
      (hostSteps get set n (markPending c w)).world).thrown = none) :
    switchOpeningSwipe h n c w =
      ⟨unmark c "is-disabled" (toast h ("已切换到开场 " ++ n.repr ++ "。") Severity.success
        (hostSteps get set n (markPending c w)).world).world, none⟩ := by
  rw [switch_present h n c w get set hget hset]
  simp [switchBody, Outcome.andThen, tryCatch, tryFinally, hok, htoast]

/-- The notices of `switchOpeningSwipe` when the host interaction returns: the success
notice, followed by an error notice only if the success notification itself threw. -/
theorem switch_notices_of_ok (h : Host) (n : JSNum) (c : Option Nat) (w : World)
    (get : World → HostResult (Option (List Message)))
    (set : World → String → JSNum → Option JSError)
    (hget : h.getChatMessages = some get) (hset : h.setChatMessage = some set)
    (hok : (hostSteps get set n (markPending c w)).thrown = none) :
    ∃ rest, (switchOpeningSwipe h n c w).world.notices =
        w.notices ++ (Severity.success, "已切换到开场 " ++ n.repr ++ "。") :: rest ∧
      ∀ p ∈ rest, p.1 ≠ Severity.success := by
  rw [switch_present h n c w get set hget hset]
  cases ht : (toast h ("已切换到开场 " ++ n.repr ++ "。") Severity.success
      (hostSteps get set n (markPending c w)).world).thrown with
  | none =>
    refine ⟨[], ?_, by simp⟩
    simp [switchBody, Outcome.andThen, tryCatch, tryFinally, hok, ht]
  | some e2 =>
    refine ⟨[(Severity.error, "切换失败：" ++ e2.describe)], ?_, by simp⟩
    simp only [switchBody, Outcome.andThen, tryCatch, tryFinally, hok, ht]
    cases ht2 : (toast h ("切换失败：" ++ e2.describe) Severity.error
      (toast h ("已切换到开场 " ++ n.repr ++ "。") Severity.success
        (hostSteps get set n (markPending c w)).world).world).thrown <;> simp

/-- C1 (counterexample). Message 0 has an entry at index 0, the empty text, and both
chat functions are present and would succeed; a click on the card with `data-swipe` 0
completes and leaves that card without `is-selected`. -/
theorem click_on_empty_variant_not_selected :
    variantAt emptyVariantMessages
        (toNumber (chatHost emptyVariantMessages).roundLiteral (some "0")) = some "" ∧
      (onClick (chatHost emptyVariantMessages) ⟨[0]⟩ (freshWorld samplePage)).thrown = none ∧
      carries (onClick (chatHost emptyVariantMessages) ⟨[0]⟩
        (freshWorld samplePage)).world.page 0 "is-selected" = false := by
  decide

/-- C1 (amended). With both chat functions present and succeeding and a command function
that returns, a click on a switch-opening element whose finite index has a non-empty
entry in message 0's variant collection, array or keyed, leaves the clicked element with
`is-selected` and no other switch-opening element with it. -/
theorem click_selects_existing_variant (h : Host) (e : ClickEvent) (w : World)
    (el : Nat) (x : Element) (get : World → HostResult (Option (List Message)))
    (set : World → String → JSNum → Option JSError) (msgs : Option (List Message))
    (v : String)
    (hel : closestAction w.page e.path = some (el, x))
    (hact : x.getAttribute "data-action" = some "switch-opening")
    (hfin : (toNumber h.roundLiteral (x.getAttribute "data-swipe")).isFinite = true)
    (hget : h.getChatMessages = some get) (hset : h.setChatMessage = some set)
    (hmsgs : get (markPending (some el) { w with page := clearOtherSelected el w.page }) =
      .ok msgs)
    (hv : variantAt msgs (toNumber h.roundLiteral (x.getAttribute "data-swipe")) = some v)
    (hne : v ≠ "")
    (hsucc : set (afterGet (markPending (some el)
      { w with page := clearOtherSelected el w.page })) v
        (toNumber h.roundLiteral (x.getAttribute "data-swipe")) = none)
    (hs : h.slashReturns) :
    carries (onClick h e w).world.page el "is-selected" = true ∧
      noOtherSelected (onClick h e w).world.page el := by
  have hclick : onClick h e w =
      switchOpeningSwipe h (toNumber h.roundLiteral (x.getAttribute "data-swipe")) (some el)
        { w with page := clearOtherSelected el w.page } := by
    simp [onClick, hel, hact, hfin]
  have hsteps := (hostSteps_hostCalls get set
    (toNumber h.roundLiteral (x.getAttribute "data-swipe"))
    (markPending (some el) { w with page := clearOtherSelected el w.page })).1 msgs v hmsgs
      hv hne
  have hok : (hostSteps get set (toNumber h.roundLiteral (x.getAttribute "data-swipe"))
      (markPending (some el) { w with page := clearOtherSelected el w.page })).thrown =
        none := by
    rw [hsteps]; exact hsucc
  rw [hclick, switch_of_ok h _ (some el) _ get set hget hset hok (toast_returns h hs _ _ _)]
  have hx : w.page[el]? = some x := closestAction_getElem? w.page e.path el x hel
  constructor
  · simp only []
    rw [carries_unmark_of_ne el "is-disabled" "is-selected" (by decide)]
    simp only [carries, toast_page, hostSteps_page]
    have := carries_markPending_selected el { w with page := clearOtherSelected el w.page } x
      (getElem?_clearOtherSelected_self el w.page x hx)
    simpa [carries] using this
  · refine noOtherSelected_of_agree (clearOtherSelected el w.page) _ el ?_
      (noOtherSelected_clearOtherSelected el w.page)
    intro j hj
    simp only []
    rw [getElem?_unmark_of_ne el j _ _ hj]
    simp only [toast_page, hostSteps_page]
    exact getElem?_markPending_of_ne el j _ hj

/-- Witness for C1 (amended): a click on the first sample card, against an array of
variants and against a keyed collection. -/
theorem click_selects_existing_variant_witness :
    (carries (onClick (chatHost sampleMessages) ⟨[0]⟩ (freshWorld samplePage)).world.page 0
        "is-selected" = true ∧
      noOtherSelected (onClick (chatHost sampleMessages) ⟨[0]⟩
        (freshWorld samplePage)).world.page 0) ∧
    (onClick (chatHost keyedMessages) ⟨[0]⟩ (freshWorld samplePage)).world.page =
      [card (some "0") ["is-selected"], card (some "1") [], card (some "abc") []] :=
  ⟨click_selects_existing_variant (chatHost sampleMessages) ⟨[0]⟩ (freshWorld samplePage) 0
      (card (some "0") []) (fun _ => .ok sampleMessages) (fun _ _ _ => none) sampleMessages
      "first opening" (by decide) (by decide) (by decide) rfl rfl rfl (by decide)
      (by decide) rfl (by intro slash hsl; cases hsl),
    by decide⟩

/-! ## Variant switcher: the call of `setChatMessage` -/

/-- C4 (counterexample). Message 0 has an entry at index 0, the empty text, and both
chat functions are present; `switchOpeningSwipe` calls `getChatMessages` and then stops
without calling `setChatMessage`. -/
theorem switch_on_empty_variant_skips_setChatMessage :
    variantAt emptyVariantMessages ⟨"0"⟩ = some "" ∧
      (switchOpeningSwipe (chatHost emptyVariantMessages) ⟨"0"⟩ (some 0)
        (freshWorld samplePage)).world.hostCalls = [HostCall.getChatMessages "0" true] := by
  decide

/-- C4 (amended). With both chat functions present, when `getChatMessages` answers with
a message 0 whose variant collection has a non-empty entry `v` at the requested index,
`switchOpeningSwipe` makes exactly two chat host calls, `getChatMessages` and then
`setChatMessage` with content `v`, position 0, the index as `swipe_id` and refresh
`display_and_render_current`; if that call returns, exactly one success notice is
recorded and it names the index. In every other case no call of `setChatMessage` is
made. -/
theorem switch_calls_setChatMessage_once (h : Host) (n : JSNum) (c : Option Nat)
    (w : World) :
    (∀ get set msgs v, h.getChatMessages = some get → h.setChatMessage = some set →
      get (markPending c w) = .ok msgs → variantAt msgs n = some v → v ≠ "" →
      (switchOpeningSwipe h n c w).world.hostCalls =
          w.hostCalls ++ [HostCall.getChatMessages "0" true,
            HostCall.setChatMessage v 0 n "display_and_render_current"] ∧
        (set (afterGet (markPending c w)) v n = none →
          ∃ rest, (switchOpeningSwipe h n c w).world.notices =
              w.notices ++ (Severity.success, "已切换到开场 " ++ n.repr ++ "。") :: rest ∧
            ∀ p ∈ rest, p.1 ≠ Severity.success)) ∧
    (∀ calls, (switchOpeningSwipe h n c w).world.hostCalls = w.hostCalls ++ calls →
      ∀ call ∈ calls, call.isSet = true →
        ∃ get set msgs v, h.getChatMessages = some get ∧ h.setChatMessage = some set ∧
          get (markPending c w) = .ok msgs ∧ variantAt msgs n = some v ∧ v ≠ "" ∧
          call = HostCall.setChatMessage v 0 n "display_and_render_current") := by
  constructor
  · intro get set msgs v hget hset hmsgs hv hne
    have hsteps := (hostSteps_hostCalls get set n (markPending c w)).1 msgs v hmsgs hv hne
    constructor
    · rw [switch_hostCalls h n c w get set hget hset, hsteps]
      simp [afterSet, afterGet]
    · intro hsucc
      apply switch_notices_of_ok h n c w get set hget hset
      rw [hsteps]
      exact hsucc
  · intro calls hcalls call hmem hisSet
    cases hget : h.getChatMessages with
    | none =>
      rw [switch_hostCalls_absent h n c w (Or.inl hget)] at hcalls
      have : calls = [] := by simpa using hcalls
      subst this
      cases hmem
    | some get =>
      cases hset : h.setChatMessage with
      | none =>
        rw [switch_hostCalls_absent h n c w (Or.inr hset)] at hcalls
        have : calls = [] := by simpa using hcalls
        subst this
        cases hmem
      | some set =>
        rw [switch_hostCalls h n c w get set hget hset] at hcalls
        by_cases hex : ∃ msgs v, get (markPending c w) = .ok msgs ∧
            variantAt msgs n = some v ∧ v ≠ ""
        · obtain ⟨msgs, v, hmsgs, hv, hne⟩ := hex
          rw [(hostSteps_hostCalls get set n (markPending c w)).1 msgs v hmsgs hv hne]
            at hcalls
          have hc : calls = [HostCall.getChatMessages "0" true,
              HostCall.setChatMessage v 0 n "display_and_render_current"] := by
            simpa [afterSet, afterGet] using hcalls.symm
          subst hc
          refine ⟨get, set, msgs, v, rfl, rfl, hmsgs, hv, hne, ?_⟩
          simp only [List.mem_cons, List.mem_singleton, List.not_mem_nil, or_false] at hmem
          rcases hmem with hm | hm
          · subst hm
            simp [HostCall.isSet] at hisSet
          · exact hm
        · have hno : ∀ msgs v, get (markPending c w) = .ok msgs →
              variantAt msgs n = some v → v = "" := by
            intro msgs v hmsgs hv
            by_contra hne
            exact hex ⟨msgs, v, hmsgs, hv, hne⟩
          rw [((hostSteps_hostCalls get set n (markPending c w)).2 hno).1] at hcalls
          have hc : calls = [HostCall.getChatMessages "0" true] := by
            simpa [afterGet] using hcalls.symm
          subst hc
          simp only [List.mem_singleton] at hmem
          subst hmem
          simp [HostCall.isSet] at hisSet

/-- Witness for C4 (amended): index 1 on a message with two variants. -/
theorem switch_calls_setChatMessage_once_witness :
    (switchOpeningSwipe (chatHost sampleMessages) ⟨"1"⟩ (some 1)
        (freshWorld samplePage)).world.hostCalls =
      [] ++ [HostCall.getChatMessages "0" true,
        HostCall.setChatMessage "second opening" 0 ⟨"1"⟩ "display_and_render_current"] ∧
    ∃ rest, (switchOpeningSwipe (chatHost sampleMessages) ⟨"1"⟩ (some 1)
        (freshWorld samplePage)).world.notices =
          [] ++ (Severity.success, "已切换到开场 " ++ "1" ++ "。") :: rest ∧
        ∀ p ∈ rest, p.1 ≠ Severity.success :=
  have key := (switch_calls_setChatMessage_once (chatHost sampleMessages) ⟨"1"⟩ (some 1)
    (freshWorld samplePage)).1 (fun _ => .ok sampleMessages) (fun _ _ _ => none)
    sampleMessages "second opening" rfl rfl rfl (by decide) (by decide)
  ⟨key.1, key.2 rfl⟩

/-! ## Variant switcher without chat functions: the returning case -/

/-- Without one of the chat functions, `switchOpeningSwipe` records the warning notice
first and calls no chat function; when the command function of the host returns, the
call returns, a hint of severity info follows the warning and the triggering element
ends without `is-disabled`. -/
theorem switch_without_host_degrades (h : Host) (n : JSNum) (c : Option Nat) (w : World)
    (habs : h.getChatMessages = none ∨ h.setChatMessage = none) :
    (∃ rest, (switchOpeningSwipe h n c w).world.notices =
      w.notices ++ (Severity.warning,
        "当前环境未暴露 getChatMessages / setChatMessage，无法自动切换开场。") :: rest) ∧
    (switchOpeningSwipe h n c w).world.hostCalls = w.hostCalls ∧
    (h.slashReturns →
      (switchOpeningSwipe h n c w).thrown = none ∧
      (switchOpeningSwipe h n c w).world.notices =
        w.notices ++ [(Severity.warning,
          "当前环境未暴露 getChatMessages / setChatMessage，无法自动切换开场。"),
          (Severity.info, "你可以手动在第 0 条消息上滑动/切换 swipes。")] ∧
      ∀ el, c = some el →
        carries (switchOpeningSwipe h n c w).world.page el "is-disabled" = false) := by
  have key : switchOpeningSwipe h n c w =
      (toast h "当前环境未暴露 getChatMessages / setChatMessage，无法自动切换开场。"
        Severity.warning (markPending c w)).andThen (fun w1 =>
      (toast h "你可以手动在第 0 条消息上滑动/切换 swipes。" Severity.info w1).andThen
        (fun w2 => ⟨unmark c "is-disabled" w2, none⟩)) := by
    unfold switchOpeningSwipe
    rcases habs with hg | hs
    · simp [hg]
    · cases hg : h.getChatMessages <;> simp [hs]
  refine ⟨?_, switch_hostCalls_absent h n c w habs, ?_⟩
  · rw [key]
    simp only [Outcome.andThen]
    cases h1 : (toast h "当前环境未暴露 getChatMessages / setChatMessage，无法自动切换开场。"
        Severity.warning (markPending c w)).thrown with
    | some e => exact ⟨[], by simp⟩
    | none =>
      simp only []
      cases h2 : (toast h "你可以手动在第 0 条消息上滑动/切换 swipes。" Severity.info
        (toast h "当前环境未暴露 getChatMessages / setChatMessage，无法自动切换开场。"
          Severity.warning (markPending c w)).world).thrown with
      | some e => exact ⟨[(Severity.info, "你可以手动在第 0 条消息上滑动/切换 swipes。")], by simp⟩
      | none => exact ⟨[(Severity.info, "你可以手动在第 0 条消息上滑动/切换 swipes。")], by simp⟩
  · intro hs
    rw [key]
    simp only [Outcome.andThen, toast_returns h hs]
    refine ⟨trivial, by simp, ?_⟩
    intro el hc
    subst hc
    exact carries_unmark_self el "is-disabled" _

end HomeInteract
